import Mathlib

/-!
Verification of the seller profile-viewing page
(`src/app/seller/view-profile/page.tsx`).

The page is a React component with three pieces of local state
(`profile`, `loading`, `error`), one mount-time effect (`fetchProfile`)
that reads a credential token from local storage and calls the
`getSellerProfile` service, a logout handler, and a render body that
dispatches on `(loading, error)` between a skeleton, an error panel and
a profile panel.

The embedding models the effect as explicit state passing together with
a trace of emitted events (service calls, toasts, `router.push`
navigations, the `logout()` call).  JavaScript truthiness is modelled
explicitly: `x || d` on strings falls back on the empty string as well
as on `null`/`undefined`, and `localStorage.getItem` may return `null`
(modelled as `Option String`, with the empty string also falsy).
-/

/-- The `SellerProfile` interface of the source: `id`, `fullName` and
`email` are required strings, the remaining fields are optional. -/
structure SellerProfile where
  id : String
  fullName : String
  email : String
  phone : Option String
  title : Option String
  companyName : Option String
  website : Option String
  location : Option String
  deriving DecidableEq, Repr

/-- The component's local state: `profile` (initially `null`),
`loading` (initially `true`), `error` (initially `null`). -/
structure PageState where
  profile : Option SellerProfile
  loading : Bool
  error : Option String
  deriving DecidableEq, Repr

/-- The initial state set by the three `useState` calls. -/
def initState : PageState :=
  { profile := none, loading := true, error := none }

/-- Observable events emitted while the page runs: a call of the
`getSellerProfile` service, a `toast` with title, description and
variant, a `router.push` to a path, and the `logout()` call of the
auth context. -/
inductive Event where
  | getSellerProfile
  | toast (title : String) (description : String) (variant : String)
  | push (path : String)
  | logout
  deriving DecidableEq, Repr

/-- JavaScript `o || d` where `o` is a string that may be
`null`/`undefined`: the empty string is falsy. -/
def jsOr (o : Option String) (d : String) : String :=
  match o with
  | none => d
  | some s => if s = "" then d else s

/-- JavaScript `s || d` for a plain string `s`. -/
def strOr (s : String) (d : String) : String :=
  if s = "" then d else s

/-- Truthiness of the `localStorage.getItem("token")` result: the
source guards with `if (!token)`, so `null` and `""` both count as
absent. -/
def tokenPresent (t : Option String) : Bool :=
  match t with
  | none => false
  | some s => !(s = "")

/-- The `err.message === ...` comparisons of the catch block: the three
recognized authentication-failure messages. -/
def isAuthErrorMsg (m : String) : Bool :=
  m = "Authentication expired" ||
  m = "No authentication token found" ||
  m = "Failed to fetch profile: 403"

/-- The `try` block of `fetchProfile`: set `loading` to `true`, read
the token, redirect with `no_token` and return when it is absent,
otherwise call `getSellerProfile`; a service failure is a thrown error
(the `Except.error` case), carrying the message together with the state
and events accumulated up to the throw point. -/
def fetchProfileTry (token : Option String) (svc : Except String SellerProfile)
    (s : PageState) :
    Except (String × PageState × List Event) (PageState × List Event) :=
  let s1 := { s with loading := true }
  if !(tokenPresent token) then
    Except.ok (s1, [Event.push "/seller/login?error=no_token"])
  else
    match svc with
    | Except.ok data =>
        Except.ok ({ s1 with profile := some data, error := none },
                   [Event.getSellerProfile])
    | Except.error msg =>
        Except.error (msg, s1, [Event.getSellerProfile])

/-- The `catch` block: set the error state to
`err.message || "Failed to load profile"`, emit a destructive toast
with the same text, and push `/seller/login?error=auth_failed` when the
raw message is one of the recognized authentication failures. -/
def catchBlock (msg : String) (s : PageState) (evs : List Event) :
    PageState × List Event :=
  let dm := strOr msg "Failed to load profile"
  let s2 := { s with error := some dm }
  let evs2 := evs ++ [Event.toast "Error" dm "destructive"]
  if isAuthErrorMsg msg then
    (s2, evs2 ++ [Event.push "/seller/login?error=auth_failed"])
  else
    (s2, evs2)

/-- The `finally` block: set `loading` to `false`. -/
def applyFinally (r : PageState × List Event) : PageState × List Event :=
  ({ r.1 with loading := false }, r.2)

/-- One run of the `fetchProfile` effect: the `try` body, with every
thrown error handled by the `catch` block, followed by `finally`.
Inputs are the stored token and the service outcome; the result is the
final state and the emitted events. -/
def fetchProfile (token : Option String) (svc : Except String SellerProfile)
    (s : PageState) : PageState × List Event :=
  match fetchProfileTry token svc s with
  | Except.ok r => applyFinally r
  | Except.error (msg, s1, evs) => applyFinally (catchBlock msg s1 evs)

/-- The same run, seen from outside the effect: an uncaught error would
surface as `Except.error`; the catch block handles every throw, so the
result is always `Except.ok`. -/
def runPage (token : Option String) (svc : Except String SellerProfile)
    (s : PageState) : Except String (PageState × List Event) :=
  match fetchProfileTry token svc s with
  | Except.ok r => Except.ok (applyFinally r)
  | Except.error (msg, s1, evs) => Except.ok (applyFinally (catchBlock msg s1 evs))

/-- The `handleLogout` handler: call `logout()` of the auth context,
then `router.push("/seller/login")`, regardless of the current state. -/
def handleLogout (_s : PageState) : List Event :=
  [Event.logout, Event.push "/seller/login"]

/-- What the profile panel displays: the avatar `alt` text, the full
name, the title, the email and the company name, each with its source
fallback.  The `website` block of the source is commented out, so the
view has no website field. -/
structure ProfilePanelView where
  avatarAlt : String
  fullName : String
  title : String
  email : String
  companyName : String
  deriving DecidableEq, Repr

/-- The profile panel of the source, field by field:
`profile?.fullName || "Profile"` for the avatar alt,
`profile?.fullName || "User"`, `profile?.title || "CEO"`,
`profile?.email || "Email not provided"`,
`profile?.companyName || "Not provided"`. -/
def renderProfilePanel (p : Option SellerProfile) : ProfilePanelView :=
  { avatarAlt := jsOr (p.map SellerProfile.fullName) "Profile"
    fullName := jsOr (p.map SellerProfile.fullName) "User"
    title := jsOr (p.bind SellerProfile.title) "CEO"
    email := jsOr (p.map SellerProfile.email) "Email not provided"
    companyName := jsOr (p.bind SellerProfile.companyName) "Not provided" }

/-- The page body: the loading skeleton (which carries no profile
data), the error panel (which carries only the message text), or the
profile panel. -/
inductive BodyView where
  | skeleton
  | errorPanel (msg : String)
  | profilePanel (view : ProfilePanelView)
  deriving DecidableEq, Repr

/-- Discriminator: the body is the skeleton. -/
def BodyView.isSkel : BodyView → Bool
  | BodyView.skeleton => true
  | _ => false

/-- Discriminator: the body is the error panel. -/
def BodyView.isErrP : BodyView → Bool
  | BodyView.errorPanel _ => true
  | _ => false

/-- Discriminator: the body is the profile panel. -/
def BodyView.isProfP : BodyView → Bool
  | BodyView.profilePanel _ => true
  | _ => false

/-- The nested ternary of the render body:
`loading ? skeleton : error ? errorPanel : profilePanel`, with the
JavaScript truthiness of the `error` string (`""` is falsy). -/
def renderBody (s : PageState) : BodyView :=
  if s.loading then
    BodyView.skeleton
  else
    match s.error with
    | some m =>
        if m = "" then BodyView.profilePanel (renderProfilePanel s.profile)
        else BodyView.errorPanel m
    | none => BodyView.profilePanel (renderProfilePanel s.profile)

/-- The states the page can be in: the initial state, or the result of
one run of the fetch effect from the initial state. -/
def Reachable (s : PageState) : Prop :=
  s = initState ∨ ∃ t svc, s = (fetchProfile t svc initState).1

/-- The toast events of a trace. -/
def toastEvents (evs : List Event) : List Event :=
  evs.filter fun e =>
    match e with
    | Event.toast _ _ _ => true
    | _ => false

/-- The navigation (`router.push`) events of a trace. -/
def navEvents (evs : List Event) : List Event :=
  evs.filter fun e =>
    match e with
    | Event.push _ => true
    | _ => false

/-- Whether the service outcome is a failure. -/
def isFailure (r : Except String SellerProfile) : Bool :=
  match r with
  | Except.error _ => true
  | Except.ok _ => false

/-- A concrete profile used to instantiate witnesses. -/
def sampleProfile : SellerProfile :=
  { id := "1", fullName := "Jane Doe", email := "jane@x.com",
    phone := none, title := none, companyName := none,
    website := none, location := none }

/-- A profile with every displayable field absent or empty, used to
instantiate the fallback witnesses. -/
def blankProfile : SellerProfile :=
  { id := "2", fullName := "", email := "",
    phone := none, title := none, companyName := none,
    website := none, location := none }

/-! ### Helper lemmas -/

/-- With the token absent (or empty), the run only navigates to the
login view with the `no_token` indicator and drops `loading`. -/
theorem fetchProfile_no_token (t : Option String) (svc : Except String SellerProfile)
    (s : PageState) (ht : tokenPresent t = false) :
    fetchProfile t svc s =
      ({ s with loading := false }, [Event.push "/seller/login?error=no_token"]) := by
  obtain ⟨pf, ld, er⟩ := s
  simp [fetchProfile, fetchProfileTry, applyFinally, ht]

/-- With the token present, a successful service call stores the
profile, clears the error and drops `loading`. -/
theorem fetchProfile_ok (t : Option String) (pr : SellerProfile)
    (s : PageState) (ht : tokenPresent t = true) :
    fetchProfile t (Except.ok pr) s =
      ({ s with profile := some pr, error := none, loading := false },
       [Event.getSellerProfile]) := by
  obtain ⟨pf, ld, er⟩ := s
  simp [fetchProfile, fetchProfileTry, applyFinally, ht]

/-- With the token present, a failed service call sets the error state
to `msg || "Failed to load profile"`, emits the destructive toast, and
additionally pushes the `auth_failed` login route when the raw message
is a recognized authentication failure. -/
theorem fetchProfile_err (t : Option String) (msg : String)
    (s : PageState) (ht : tokenPresent t = true) :
    fetchProfile t (Except.error msg) s =
      ({ s with error := some (strOr msg "Failed to load profile"), loading := false },
       if isAuthErrorMsg msg then
         [Event.getSellerProfile,
          Event.toast "Error" (strOr msg "Failed to load profile") "destructive",
          Event.push "/seller/login?error=auth_failed"]
       else
         [Event.getSellerProfile,
          Event.toast "Error" (strOr msg "Failed to load profile") "destructive"]) := by
  obtain ⟨pf, ld, er⟩ := s
  simp only [fetchProfile, fetchProfileTry, catchBlock, applyFinally, ht]
  cases h : isAuthErrorMsg msg <;> simp [h]

/-- `strOr` with a non-empty default never yields the empty string. -/
theorem strOr_load_ne_empty (msg : String) :
    strOr msg "Failed to load profile" ≠ "" := by
  unfold strOr
  split
  · decide
  · assumption

/-- The error state of a reachable page state is never the empty
string, so the JavaScript truthiness test on `error` agrees with the
`null` test on reachable states. -/
theorem reachable_error_ne_empty (s : PageState) (hs : Reachable s)
    (m : String) (he : s.error = some m) : m ≠ "" := by
  rcases hs with rfl | ⟨t, svc, rfl⟩
  · simp [initState] at he
  · cases htp : tokenPresent t
    · rw [fetchProfile_no_token t svc initState htp] at he
      simp [initState] at he
    · cases svc with
      | ok pr =>
          rw [fetchProfile_ok t pr initState htp] at he
          simp at he
      | error msg =>
          rw [fetchProfile_err t msg initState htp] at he
          simp at he
          rw [← he]
          exact strOr_load_ne_empty msg

/-! ### Claims -/

/-- C1: for every fetch failure whose message is exactly one of
"Authentication expired", "No authentication token found" or
"Failed to fetch profile: 403", the page displays a destructive toast
carrying that message, sets the error state to that message, and pushes
"/seller/login?error=auth_failed". -/
theorem c1_auth_failure_redirect (t : Option String) (msg : String) (s : PageState)
    (ht : tokenPresent t = true) (hm : isAuthErrorMsg msg = true) :
    (fetchProfile t (Except.error msg) s).1.error = some msg ∧
    Event.toast "Error" msg "destructive" ∈ (fetchProfile t (Except.error msg) s).2 ∧
    Event.push "/seller/login?error=auth_failed" ∈ (fetchProfile t (Except.error msg) s).2 := by
  have hm2 : (msg = "Authentication expired" ∨ msg = "No authentication token found") ∨
      msg = "Failed to fetch profile: 403" := by
    simpa [isAuthErrorMsg] using hm
  have hne : msg ≠ "" := by
    rcases hm2 with (rfl | rfl) | rfl
    · decide
    · decide
    · decide
  have hstr : strOr msg "Failed to load profile" = msg := by
    unfold strOr
    simp [hne]
  rw [fetchProfile_err t msg s ht]
  simp [hm, hstr]

/-- C1 witness: the run with a stored token and the failure message
"Authentication expired". -/
theorem c1_witness :
    (fetchProfile (some "tok") (Except.error "Authentication expired") initState).1.error
        = some "Authentication expired" ∧
    Event.toast "Error" "Authentication expired" "destructive"
        ∈ (fetchProfile (some "tok") (Except.error "Authentication expired") initState).2 ∧
    Event.push "/seller/login?error=auth_failed"
        ∈ (fetchProfile (some "tok") (Except.error "Authentication expired") initState).2 :=
  c1_auth_failure_redirect (some "tok") "Authentication expired" initState
    (by decide) (by decide)

/-- C2: with no credential token present at mount, the run pushes
"/seller/login?error=no_token" and never calls the `getSellerProfile`
service. -/
theorem c2_no_token_no_fetch (t : Option String) (svc : Except String SellerProfile)
    (s : PageState) (ht : tokenPresent t = false) :
    Event.push "/seller/login?error=no_token" ∈ (fetchProfile t svc s).2 ∧
    Event.getSellerProfile ∉ (fetchProfile t svc s).2 := by
  rw [fetchProfile_no_token t svc s ht]
  simp

/-- C2 witness: the run with no stored token (the service outcome is
irrelevant and never consulted). -/
theorem c2_witness :
    Event.push "/seller/login?error=no_token"
      ∈ (fetchProfile none (Except.error "x") initState).2 :=
  (c2_no_token_no_fetch none (Except.error "x") initState rfl).1

/-- C3 counterexample: a fetch failure whose message is the empty
string is not in the recognized set, yet the error state is set to the
fallback text "Failed to load profile", not to the message itself. -/
theorem c3_empty_message_cex :
    isAuthErrorMsg "" = false ∧
    (fetchProfile (some "tok") (Except.error "") initState).1.error
        = some "Failed to load profile" ∧
    (fetchProfile (some "tok") (Except.error "") initState).1.error ≠ some "" := by
  refine ⟨by decide, ?_, ?_⟩ <;>
    rw [fetchProfile_err (some "tok") "" initState (by decide)] <;> decide

/-- C3 (amended): for every fetch failure whose message is non-empty
and not in the recognized set, the page sets the error state to that
message, renders the error panel with that text, and emits no
navigation request. -/
theorem c3_generic_failure (t : Option String) (msg : String) (s : PageState)
    (ht : tokenPresent t = true) (hne : msg ≠ "") (hm : isAuthErrorMsg msg = false) :
    (fetchProfile t (Except.error msg) s).1.error = some msg ∧
    renderBody (fetchProfile t (Except.error msg) s).1 = BodyView.errorPanel msg ∧
    navEvents (fetchProfile t (Except.error msg) s).2 = [] := by
  have hstr : strOr msg "Failed to load profile" = msg := by
    unfold strOr
    simp [hne]
  rw [fetchProfile_err t msg s ht]
  simp [hm, hstr, renderBody, navEvents, hne]

/-- C3 witness: the run with a stored token and the unrecognized
failure message "Network timeout". -/
theorem c3_witness :
    (fetchProfile (some "tok") (Except.error "Network timeout") initState).1.error
        = some "Network timeout" ∧
    renderBody (fetchProfile (some "tok") (Except.error "Network timeout") initState).1
        = BodyView.errorPanel "Network timeout" ∧
    navEvents (fetchProfile (some "tok") (Except.error "Network timeout") initState).2 = [] :=
  c3_generic_failure (some "tok") "Network timeout" initState
    (by decide) (by decide) (by decide)

/-- C4: on every state the page can be in, the body is exactly one of
the three views, and they are mutually exclusive: the skeleton exactly
when `loading` is true, the error panel exactly when `loading` is false
and `error` is non-null, and the profile panel exactly when `loading`
is false and `error` is null.  The skeleton constructor carries no
profile data, so no profile fields are rendered while loading. -/
theorem c4_exclusive_views (s : PageState) (hs : Reachable s) :
    (renderBody s).isSkel = s.loading ∧
    (renderBody s).isErrP = (!s.loading && !s.error.isNone) ∧
    (renderBody s).isProfP = (!s.loading && s.error.isNone) := by
  cases hl : s.loading
  · cases he : s.error with
    | none =>
        simp [renderBody, hl, he, BodyView.isSkel, BodyView.isErrP, BodyView.isProfP]
    | some m =>
        have hm : m ≠ "" := reachable_error_ne_empty s hs m he
        simp [renderBody, hl, he, hm, BodyView.isSkel, BodyView.isErrP, BodyView.isProfP]
  · simp [renderBody, hl, BodyView.isSkel, BodyView.isErrP, BodyView.isProfP]

/-- C4 witness: the reachable state produced by a failed fetch with a
stored token, which renders the error panel and nothing else. -/
theorem c4_witness :
    (renderBody (fetchProfile (some "tok") (Except.error "boom") initState).1).isSkel
        = (fetchProfile (some "tok") (Except.error "boom") initState).1.loading ∧
    (renderBody (fetchProfile (some "tok") (Except.error "boom") initState).1).isErrP
        = (!(fetchProfile (some "tok") (Except.error "boom") initState).1.loading &&
           !(fetchProfile (some "tok") (Except.error "boom") initState).1.error.isNone) ∧
    (renderBody (fetchProfile (some "tok") (Except.error "boom") initState).1).isProfP
        = (!(fetchProfile (some "tok") (Except.error "boom") initState).1.loading &&
           (fetchProfile (some "tok") (Except.error "boom") initState).1.error.isNone) :=
  c4_exclusive_views (fetchProfile (some "tok") (Except.error "boom") initState).1
    (Or.inr ⟨some "tok", Except.error "boom", rfl⟩)

/-- C5: with a token present, a successful service response is stored,
the error state becomes null, `loading` becomes false, and the body is
the profile panel (no error panel), which shows the response's
`fullName` and `email` whenever they are non-empty. -/
theorem c5_success (t : Option String) (pr : SellerProfile) (s : PageState)
    (ht : tokenPresent t = true) :
    (fetchProfile t (Except.ok pr) s).1 =
      { s with profile := some pr, error := none, loading := false } ∧
    renderBody (fetchProfile t (Except.ok pr) s).1
      = BodyView.profilePanel (renderProfilePanel (some pr)) ∧
    (pr.fullName ≠ "" → (renderProfilePanel (some pr)).fullName = pr.fullName) ∧
    (pr.email ≠ "" → (renderProfilePanel (some pr)).email = pr.email) := by
  rw [fetchProfile_ok t pr s ht]
  refine ⟨rfl, ?_, ?_, ?_⟩
  · simp [renderBody]
  · intro h
    simp [renderProfilePanel, jsOr, h]
  · intro h
    simp [renderProfilePanel, jsOr, h]

/-- C5 witness: a successful response with fullName "Jane Doe" and
email "jane@x.com" renders both strings. -/
theorem c5_witness :
    (fetchProfile (some "tok") (Except.ok sampleProfile) initState).1 =
      { initState with profile := some sampleProfile, error := none, loading := false } ∧
    renderBody (fetchProfile (some "tok") (Except.ok sampleProfile) initState).1
      = BodyView.profilePanel (renderProfilePanel (some sampleProfile)) ∧
    (renderProfilePanel (some sampleProfile)).fullName = "Jane Doe" ∧
    (renderProfilePanel (some sampleProfile)).email = "jane@x.com" := by
  obtain ⟨h1, h2, h3, h4⟩ := c5_success (some "tok") sampleProfile initState (by decide)
  exact ⟨h1, h2, (h3 (by decide)).trans rfl, (h4 (by decide)).trans rfl⟩

/-- C6 counterexample: a run with a stored token and a successful fetch
emits no toast at all, so not every run terminates with a notification
plus a panel. -/
theorem c6_success_run_cex :
    (fetchProfile (some "tok") (Except.ok sampleProfile) initState).1.profile
        = some sampleProfile ∧
    toastEvents (fetchProfile (some "tok") (Except.ok sampleProfile) initState).2 = [] := by
  rw [fetchProfile_ok (some "tok") sampleProfile initState (by decide)]
  exact ⟨rfl, rfl⟩

/-- C6 (amended): the catch block handles every service failure, so the
run never surfaces an error (`runPage` is always `ok`); every run ends
with `loading` false and a panel (never the skeleton); runs whose fetch
fails additionally emit exactly one toast, and a navigation request may
follow. -/
theorem c6_caught_and_resolved (t : Option String) (svc : Except String SellerProfile)
    (s : PageState) :
    runPage t svc s = Except.ok (fetchProfile t svc s) ∧
    (fetchProfile t svc s).1.loading = false ∧
    (renderBody (fetchProfile t svc s).1).isSkel = false ∧
    ((tokenPresent t && isFailure svc) = true →
      (toastEvents (fetchProfile t svc s).2).length = 1) := by
  refine ⟨?_, ?_, ?_, ?_⟩
  · cases h : fetchProfileTry t svc s with
    | ok r => simp [runPage, fetchProfile, h]
    | error e =>
        obtain ⟨msg, s1, evs⟩ := e
        simp [runPage, fetchProfile, h]
  · cases htp : tokenPresent t
    · rw [fetchProfile_no_token t svc s htp]
    · cases svc with
      | ok pr => rw [fetchProfile_ok t pr s htp]
      | error msg => rw [fetchProfile_err t msg s htp]
  · cases htp : tokenPresent t
    · rw [fetchProfile_no_token t svc s htp]
      rcases he : s.error with _ | m
      · simp [renderBody, he, BodyView.isSkel]
      · by_cases hm : m = "" <;> simp [renderBody, he, hm, BodyView.isSkel]
    · cases svc with
      | ok pr =>
          rw [fetchProfile_ok t pr s htp]
          simp [renderBody, BodyView.isSkel]
      | error msg =>
          rw [fetchProfile_err t msg s htp]
          simp [renderBody, BodyView.isSkel, strOr_load_ne_empty msg]
  · intro h
    rw [Bool.and_eq_true] at h
    obtain ⟨h1, h2⟩ := h
    cases svc with
    | ok pr => simp [isFailure] at h2
    | error msg =>
        rw [fetchProfile_err t msg s h1]
        cases hA : isAuthErrorMsg msg <;> simp [hA, toastEvents]

/-- C6 witness: a failing run with a stored token is caught, ends with
`loading` false and a non-skeleton panel, and emits exactly one toast. -/
theorem c6_witness :
    runPage (some "tok") (Except.error "boom") initState
      = Except.ok (fetchProfile (some "tok") (Except.error "boom") initState) ∧
    (fetchProfile (some "tok") (Except.error "boom") initState).1.loading = false ∧
    (renderBody (fetchProfile (some "tok") (Except.error "boom") initState).1).isSkel
      = false ∧
    (toastEvents (fetchProfile (some "tok") (Except.error "boom") initState).2).length = 1 := by
  obtain ⟨h1, h2, h3, h4⟩ :=
    c6_caught_and_resolved (some "tok") (Except.error "boom") initState
  exact ⟨h1, h2, h3, h4 (by decide)⟩

/-- C7: from any current state, the logout handler emits the
`logout()` call of the auth context followed by the navigation to
"/seller/login", in that order, unconditionally. -/
theorem c7_logout_clears_then_navigates (s : PageState) :
    handleLogout s = [Event.logout, Event.push "/seller/login"] := rfl

/-- C8: in the loaded view, each displayed field falls back to its
fixed text when its value is absent or empty — full name to "User",
title to "CEO", email to "Email not provided", company name to
"Not provided" — and the profile panel does not depend on the
`website` field, which therefore exists in the data model but is never
displayed. -/
theorem c8_profile_panel_fallbacks (p : SellerProfile) (w : Option String) :
    (p.fullName = "" → (renderProfilePanel (some p)).fullName = "User") ∧
    (p.fullName ≠ "" → (renderProfilePanel (some p)).fullName = p.fullName) ∧
    (p.title = none → (renderProfilePanel (some p)).title = "CEO") ∧
    (p.title = some "" → (renderProfilePanel (some p)).title = "CEO") ∧
    (p.email = "" → (renderProfilePanel (some p)).email = "Email not provided") ∧
    (p.email ≠ "" → (renderProfilePanel (some p)).email = p.email) ∧
    (p.companyName = none → (renderProfilePanel (some p)).companyName = "Not provided") ∧
    (p.companyName = some "" → (renderProfilePanel (some p)).companyName = "Not provided") ∧
    renderProfilePanel (some { p with website := w }) = renderProfilePanel (some p) := by
  refine ⟨fun h => ?_, fun h => ?_, fun h => ?_, fun h => ?_, fun h => ?_,
    fun h => ?_, fun h => ?_, fun h => ?_, rfl⟩ <;>
    simp [renderProfilePanel, jsOr, h]

/-- C8 witness: a profile with every displayable field absent or empty
renders all four fallback texts, and changing its website changes
nothing in the rendered panel. -/
theorem c8_witness :
    (renderProfilePanel (some blankProfile)).fullName = "User" ∧
    (renderProfilePanel (some blankProfile)).title = "CEO" ∧
    (renderProfilePanel (some blankProfile)).email = "Email not provided" ∧
    (renderProfilePanel (some blankProfile)).companyName = "Not provided" ∧
    renderProfilePanel (some { blankProfile with website := some "https://x.example" })
      = renderProfilePanel (some blankProfile) := by
  obtain ⟨h1, _, h3, _, h5, _, h7, _, h9⟩ :=
    c8_profile_panel_fallbacks blankProfile (some "https://x.example")
  exact ⟨h1 rfl, h3 rfl, h5 rfl, h7 rfl, h9⟩

/-- C9: when the token is absent the finally clause still drops
`loading` to false while `error` and `profile` stay null, so until the
navigation completes the body is the profile panel populated entirely
with the fallback values — not the skeleton and not the error panel. -/
theorem c9_no_token_fallback_panel (t : Option String) (svc : Except String SellerProfile)
    (ht : tokenPresent t = false) :
    (fetchProfile t svc initState).1 =
      { profile := none, loading := false, error := none } ∧
    renderBody (fetchProfile t svc initState).1
      = BodyView.profilePanel (renderProfilePanel none) ∧
    (renderProfilePanel none).fullName = "User" ∧
    (renderProfilePanel none).title = "CEO" ∧
    (renderProfilePanel none).companyName = "Not provided" ∧
    (renderBody (fetchProfile t svc initState).1).isSkel = false ∧
    (renderBody (fetchProfile t svc initState).1).isErrP = false := by
  rw [fetchProfile_no_token t svc initState ht]
  refine ⟨rfl, ?_, rfl, rfl, rfl, ?_, ?_⟩ <;>
    simp [renderBody, initState, BodyView.isSkel, BodyView.isErrP]

/-- C9 witness: the missing-token run (here with a service outcome that
is never consulted) ends on the fallback-populated profile panel. -/
theorem c9_witness :
    (fetchProfile none (Except.ok sampleProfile) initState).1 =
      { profile := none, loading := false, error := none } ∧
    renderBody (fetchProfile none (Except.ok sampleProfile) initState).1
      = BodyView.profilePanel (renderProfilePanel none) ∧
    (renderProfilePanel none).fullName = "User" ∧
    (renderProfilePanel none).title = "CEO" ∧
    (renderProfilePanel none).companyName = "Not provided" ∧
    (renderBody (fetchProfile none (Except.ok sampleProfile) initState).1).isSkel = false ∧
    (renderBody (fetchProfile none (Except.ok sampleProfile) initState).1).isErrP = false :=
  c9_no_token_fallback_panel none (Except.ok sampleProfile) rfl

/-- C10: the profile state is only ever written on the success path:
every failed fetch leaves it unchanged, so after a failed fetch from
the initial state the profile is still null and the body is the error
panel, which carries only the message text and no response data. -/
theorem c10_profile_unchanged_on_failure (t : Option String) (msg : String) (s : PageState) :
    (fetchProfile t (Except.error msg) s).1.profile = s.profile ∧
    (fetchProfile t (Except.error msg) initState).1.profile = none ∧
    (tokenPresent t = true →
      renderBody (fetchProfile t (Except.error msg) initState).1
        = BodyView.errorPanel (strOr msg "Failed to load profile")) := by
  refine ⟨?_, ?_, ?_⟩
  · cases htp : tokenPresent t
    · rw [fetchProfile_no_token t (Except.error msg) s htp]
    · rw [fetchProfile_err t msg s htp]
  · cases htp : tokenPresent t
    · rw [fetchProfile_no_token t (Except.error msg) initState htp]
      rfl
    · rw [fetchProfile_err t msg initState htp]
      rfl
  · intro ht
    rw [fetchProfile_err t msg initState ht]
    simp [renderBody, initState, strOr_load_ne_empty msg]

/-- C10 witness: after the failing run with message "boom" the profile
is still null and the body is the error panel carrying "boom". -/
theorem c10_witness :
    (fetchProfile (some "tok") (Except.error "boom") initState).1.profile = none ∧
    renderBody (fetchProfile (some "tok") (Except.error "boom") initState).1
      = BodyView.errorPanel "boom" := by
  obtain ⟨_, h2, h3⟩ := c10_profile_unchanged_on_failure (some "tok") "boom" initState
  exact ⟨h2, (h3 (by decide)).trans (by decide)⟩
